import Mathlib

set_option maxRecDepth 100000

/-!
A shallow embedding of the cryptographic core of the Olm/Megolm repository
(files `src/inbound_group_session.c`, `src/session.cpp`, `include/olm/crypto.hh`),
together with theorems settling the frozen claims about it.

Bytes are modelled as `Nat` (values below 256 where it matters), byte buffers as
`List Nat`.  The low-level primitives the spec declares external (Curve25519,
SHA-256, HMAC, the AES cipher, the wire-format decoders, the Megolm hash-step)
are passed in as explicit function parameters, so every theorem quantifies over
them; witnesses instantiate them with concrete stand-ins.
-/

namespace Olm

/-- The error enum (`OlmErrorCode` / `olm::ErrorCode`), as used by the sources. -/
inductive ErrorCode where
  | SUCCESS
  | NOT_ENOUGH_RANDOM
  | OUTPUT_BUFFER_TOO_SMALL
  | BAD_MESSAGE_VERSION
  | BAD_MESSAGE_FORMAT
  | BAD_MESSAGE_MAC
  | BAD_MESSAGE_KEY_ID
  | UNKNOWN_MESSAGE_INDEX
  | INVALID_BASE64
  | BAD_SESSION_KEY
  | UNKNOWN_PICKLE_VERSION
  | CORRUPTED_PICKLE
deriving DecidableEq, Repr

/-- `MEGOLM_RATCHET_LENGTH`: the megolm ratchet is 4 x 32 = 128 bytes. -/
def MEGOLM_RATCHET_LENGTH : Nat := 128

/-- `OLM_PROTOCOL_VERSION` for group messages (`inbound_group_session.c`). -/
def OLM_PROTOCOL_VERSION : Nat := 3

/-- Unsigned 32-bit subtraction `(a - b) mod 2^32`, as C computes it on
`uint32_t` operands. -/
def u32sub (a b : Nat) : Nat := ((a % 2 ^ 32) + 2 ^ 32 - b % 2 ^ 32) % 2 ^ 32

/-! ## Base64 (external codec, `_olm_decode_base64*`)

Modelled from the spec: `base64.c` is not in the source slice; the spec lists the
base64 codec among the external collaborators.  This is standard unpadded
base64: a length `n % 4 == 1` is invalid, otherwise `n` characters decode to
`3*(n/4)` bytes plus `n%4 - 1` bytes for a trailing partial group. -/

/-- Value of one base64 alphabet character ('A'-'Z','a'-'z','0'-'9','+','/'). -/
def base64Sextet (c : Nat) : Nat :=
  if 65 ≤ c ∧ c ≤ 90 then c - 65
  else if 97 ≤ c ∧ c ≤ 122 then c - 71
  else if 48 ≤ c ∧ c ≤ 57 then c + 4
  else if c = 43 then 62
  else if c = 47 then 63
  else 0

/-- `_olm_decode_base64_length`: number of raw bytes a base64 input of the given
length decodes to, or `none` if the length is invalid. -/
def decode_base64_length (n : Nat) : Option Nat :=
  if n % 4 = 1 then none
  else some (3 * (n / 4) + (if n % 4 = 0 then 0 else n % 4 - 1))

/-- Repack a list of 6-bit values into 8-bit bytes (big-endian bit order). -/
def sextetsToBytes : List Nat → List Nat
  | s0 :: s1 :: s2 :: s3 :: rest =>
      (s0 * 4 + s1 / 16) :: ((s1 % 16) * 16 + s2 / 4) :: ((s2 % 4) * 64 + s3) ::
        sextetsToBytes rest
  | [s0, s1] => [s0 * 4 + s1 / 16]
  | [s0, s1, s2] => [s0 * 4 + s1 / 16, (s1 % 16) * 16 + s2 / 4]
  | _ => []

/-- `_olm_decode_base64`: decode a base64 character buffer to raw bytes. -/
def decode_base64 (input : List Nat) : List Nat :=
  sextetsToBytes (input.map base64Sextet)

/-! ## Megolm ratchet state -/

/-- `Megolm` (from `megolm.h`): a 32-bit counter and 128 bytes of ratchet data.
The counter is kept as a `Nat` below `2^32`. -/
structure Megolm where
  counter : Nat
  data : List Nat
deriving DecidableEq, Repr

/-- `megolm_init(megolm, random_data, counter)`: copy the 128 data bytes and
store the counter (a `uint32_t` argument, hence the reduction mod `2^32`). -/
def megolm_init (random_data : List Nat) (counter : Nat) : Megolm :=
  { counter := counter % 2 ^ 32, data := random_data }

/-- The hash-step transform the megolm ratchet applies to its 128 data bytes
when the counter moves from `from_` to `to_`.

Modelled from the spec: `megolm.c` is not in the source slice; §4.5 specifies a
deterministic HMAC-SHA-256 cadence construction over the four 32-byte parts.
Only its determinism matters to the claims, so it is kept as a parameter. -/
structure MegolmHash where
  advanceData : List Nat → Nat → Nat → List Nat

/-- `megolm_advance_to(megolm, advance_to)`.

Modelled from the spec: `megolm.c` is not in the source slice; §4.5 says
`advance_to(target)` fails (here: leaves the state alone) when the target is
below the counter, and otherwise applies the minimal set of hash steps and ends
with `counter = target`. -/
def megolm_advance_to (h : MegolmHash) (m : Megolm) (advance_to : Nat) : Megolm :=
  if advance_to % 2 ^ 32 < m.counter then m
  else { counter := advance_to % 2 ^ 32,
         data := h.advanceData m.data m.counter (advance_to % 2 ^ 32) }

/-! ## Inbound group session -/

/-- `struct OlmInboundGroupSession`: the earliest known ratchet, the most recent
ratchet, and the last error. -/
structure InboundGroupSession where
  initial_ratchet : Megolm
  latest_ratchet : Megolm
  last_error : ErrorCode
deriving DecidableEq, Repr

/-- `olm_init_inbound_group_session(session, message_index, session_key, len)`:
validate the base64 length, require the decoded key to be exactly 128 bytes,
then install the decoded bytes as both `initial_ratchet` and `latest_ratchet`
at the given counter.  Returns the new session and `some ()` on success,
`none` (the `(size_t)-1` sentinel) on failure. -/
def olm_init_inbound_group_session (session : InboundGroupSession)
    (message_index : Nat) (session_key : List Nat) :
    InboundGroupSession × Option Unit :=
  match decode_base64_length session_key.length with
  | none => ({ session with last_error := .INVALID_BASE64 }, none)
  | some raw_length =>
    if raw_length ≠ MEGOLM_RATCHET_LENGTH then
      ({ session with last_error := .BAD_SESSION_KEY }, none)
    else
      let key_buf := decode_base64 session_key
      ({ session with
          initial_ratchet := megolm_init key_buf message_index,
          latest_ratchet := megolm_init key_buf message_index }, some ())

/-- Output of `_olm_decode_group_message` (`message.c`, not in the source
slice): the version byte, the optional message index, whether a session-id
field was seen, and the located ciphertext.  In the C struct absent fields are
null pointers / a `has_message_index` flag. -/
structure GroupMessageFields where
  version : Nat
  has_message_index : Bool
  message_index : Nat
  has_session_id : Bool
  ciphertext : Option (List Nat)
deriving DecidableEq, Repr

/-- The megolm cipher operations (`cipher.c`, external): the MAC length, the
plaintext bound, and `decrypt`, which receives the 128-byte ratchet data as the
key, the whole raw message (over which the MAC was computed) and the located
ciphertext, returning the plaintext or `none` on MAC/padding failure. -/
structure GroupCipher where
  mac_length : Nat
  decrypt_max_plaintext_length : Nat → Nat
  decrypt : List Nat → List Nat → List Nat → Option (List Nat)

/-- The external collaborators of the inbound group session: the group-message
decoder (modelled from the spec's wire format, left parametric), the megolm
cipher, and the megolm hash-step. -/
structure GroupExt where
  decode : List Nat → Nat → GroupMessageFields
  cipher : GroupCipher
  hash : MegolmHash

/-- `_decrypt(session, message, ..., plaintext, max_plaintext_length)` from
`inbound_group_session.c`: decode, check version and required fields, check the
output buffer, pick a megolm instance (advancing `latest_ratchet` in place when
the index is at or beyond it, otherwise a scratch copy of `initial_ratchet`),
advance it to the message index, then run the cipher.  Returns the new session
state and the plaintext (or `none` with `last_error` set). -/
def group_decrypt_raw (ext : GroupExt) (session : InboundGroupSession)
    (message : List Nat) (max_plaintext_length : Nat) :
    InboundGroupSession × Option (List Nat) :=
  let d := ext.decode message ext.cipher.mac_length
  if d.version ≠ OLM_PROTOCOL_VERSION then
    ({ session with last_error := .BAD_MESSAGE_VERSION }, none)
  else if ¬ d.has_message_index ∨ ¬ d.has_session_id ∨ d.ciphertext = none then
    ({ session with last_error := .BAD_MESSAGE_FORMAT }, none)
  else
    let ciphertext := d.ciphertext.getD []
    let max_length := ext.cipher.decrypt_max_plaintext_length ciphertext.length
    if max_plaintext_length < max_length then
      ({ session with last_error := .OUTPUT_BUFFER_TOO_SMALL }, none)
    else if u32sub d.message_index session.latest_ratchet.counter < 2 ^ 31 then
      -- at or beyond the latest ratchet value: use (and mutate) latest_ratchet
      let megolm := megolm_advance_to ext.hash session.latest_ratchet d.message_index
      let session' := { session with latest_ratchet := megolm }
      match ext.cipher.decrypt megolm.data message ciphertext with
      | none => ({ session' with last_error := .BAD_MESSAGE_MAC }, none)
      | some plaintext => (session', some plaintext)
    else if u32sub d.message_index session.initial_ratchet.counter ≥ 2 ^ 31 then
      -- the counter is before our initial ratchet - we can't decode this
      ({ session with last_error := .UNKNOWN_MESSAGE_INDEX }, none)
    else
      -- start from a scratch copy of the initial megolm
      let megolm := megolm_advance_to ext.hash session.initial_ratchet d.message_index
      match ext.cipher.decrypt megolm.data message ciphertext with
      | none => ({ session with last_error := .BAD_MESSAGE_MAC }, none)
      | some plaintext => (session, some plaintext)

/-- `olm_group_decrypt`: base64-decode the message in place, then `_decrypt`. -/
def olm_group_decrypt (ext : GroupExt) (session : InboundGroupSession)
    (message : List Nat) (max_plaintext_length : Nat) :
    InboundGroupSession × Option (List Nat) :=
  match decode_base64_length message.length with
  | none => ({ session with last_error := .INVALID_BASE64 }, none)
  | some _ =>
    group_decrypt_raw ext session (decode_base64 message) max_plaintext_length

/-! ## Pairwise (Olm) session, from `session.cpp`

The Ratchet (`ratchet.cpp`), the account key store (`account.hh`), the
Curve25519/SHA-256 primitives (`crypto.hh` declares them; the implementations
are external) and the envelope codec (`message.cpp`) are not in the source
slice.  They enter the model as an abstract ratchet state type `R` and a bundle
of function parameters `SessionExt`, so that each theorem holds for every
implementation of the externals. -/

/-- `KEY_LENGTH` from `crypto.hh`. -/
def KEY_LENGTH : Nat := 32

/-- A Curve25519 key pair (`crypto.hh`): 32-byte public and private parts. -/
structure Curve25519KeyPair where
  public_key : List Nat
  private_key : List Nat
deriving DecidableEq, Repr

/-- `olm::MessageType`. -/
inductive MessageType where
  | PRE_KEY
  | MESSAGE
deriving DecidableEq, Repr

/-- Output of `decode_one_time_key_message` (`message.cpp`, not in the source
slice): the located key fields and embedded message, `none` standing for a null
pointer.  Field lengths are the lengths of the lists. -/
structure PreKeyMessageReader where
  identity_key : Option (List Nat)
  base_key : Option (List Nat)
  one_time_key : Option (List Nat)
  message : Option (List Nat)
deriving DecidableEq, Repr

/-- Output of `decode_message` (`message.cpp`, not in the source slice):
only the ratchet-key field is consumed by `new_inbound_session`. -/
structure MessageReader where
  ratchet_key : Option (List Nat)
deriving DecidableEq, Repr

/-- The account as the session consumes it (`account.hh`, not in the source
slice): the Curve25519 identity key pair and `lookup_key`, which finds the
one-time key pair whose public part matches the given bytes. -/
structure Account where
  identity_key : Curve25519KeyPair
  lookup_key : List Nat → Option Curve25519KeyPair

/-- The session's external collaborators, over an abstract ratchet state `R`:
the Curve25519 primitives and SHA-256 from `crypto.hh`, the two ratchet
initialisers and `decrypt`/`encrypt` from `ratchet.cpp`, and the two envelope
decoders from `message.cpp`.  Ratchet operations return the updated ratchet
state together with the result (`Except` carrying `ratchet.last_error` on
failure). -/
structure SessionExt (R : Type) where
  curve25519_generate_key : List Nat → Curve25519KeyPair
  curve25519_shared_secret : Curve25519KeyPair → List Nat → List Nat
  sha256 : List Nat → List Nat
  initialise_as_alice : List Nat → Curve25519KeyPair → R
  initialise_as_bob : List Nat → List Nat → R
  ratchet_decrypt : R → List Nat → R × Except ErrorCode (List Nat)
  ratchet_encrypt : R → List Nat → List Nat → R × Except ErrorCode (List Nat)
  decode_one_time_key_message : List Nat → PreKeyMessageReader
  decode_message : List Nat → Nat → MessageReader
  mac_length : Nat

/-- `olm::Session`: the handshake triple is stored as public keys; `ratchet` is
the abstract double-ratchet state. -/
structure Session (R : Type) where
  received_message : Bool
  alice_identity_key : List Nat
  alice_base_key : List Nat
  bob_one_time_key : List Nat
  ratchet : R
  last_error : ErrorCode
deriving DecidableEq

/-- `Session::new_outbound_session_random_length() = KEY_LENGTH * 2`. -/
def new_outbound_session_random_length : Nat := KEY_LENGTH * 2

/-- `Session::new_outbound_session(account, identity_key, one_time_key,
random, random_length)`: require 64 random bytes; generate the base (ephemeral)
key from the first 32 and the ratchet key T0 from the next 32; store the
handshake triple; build `secret = DH(Ia,Eb) || DH(Ea,Ib) || DH(Ea,Eb)` and
initialise the ratchet as Alice. -/
def new_outbound_session {R : Type} (ext : SessionExt R) (s : Session R)
    (local_account : Account) (identity_key one_time_key : List Nat)
    (random : List Nat) : Session R × Option Unit :=
  if random.length < new_outbound_session_random_length then
    ({ s with last_error := .NOT_ENOUGH_RANDOM }, none)
  else
    let base_key := ext.curve25519_generate_key (random.take KEY_LENGTH)
    let ratchet_key :=
      ext.curve25519_generate_key ((random.drop KEY_LENGTH).take KEY_LENGTH)
    let alice_identity_key_pair := local_account.identity_key
    let secret :=
      ext.curve25519_shared_secret alice_identity_key_pair one_time_key ++
      ext.curve25519_shared_secret base_key identity_key ++
      ext.curve25519_shared_secret base_key one_time_key
    ({ s with
        received_message := false,
        alice_identity_key := alice_identity_key_pair.public_key,
        alice_base_key := base_key.public_key,
        bob_one_time_key := one_time_key,
        ratchet := ext.initialise_as_alice secret ratchet_key }, some ())

/-- `check_message_fields(reader, have_their_identity_key)` from
`session.cpp`. -/
def check_message_fields (reader : PreKeyMessageReader)
    (have_their_identity_key : Bool) : Bool :=
  (have_their_identity_key || reader.identity_key.isSome) &&
  (match reader.identity_key with
   | some k => k.length == KEY_LENGTH
   | none => true) &&
  reader.message.isSome &&
  reader.base_key.isSome &&
  (reader.base_key.getD []).length == KEY_LENGTH &&
  reader.one_time_key.isSome &&
  (reader.one_time_key.getD []).length == KEY_LENGTH

/-- `Session::new_inbound_session(account, their_identity_key, message, len)`:
decode the pre-key envelope, check fields and (when both are present) the
identity key against the expected one, then overwrite the stored triple from
the message, decode the embedded message's ratchet key, look up our one-time
key, compute `secret = DH(Eb,Ia) || DH(Ib,Ea) || DH(Eb,Ea)` and initialise the
ratchet as Bob.  (When the envelope has no identity-key field but an expected
key was supplied, the C code copies from a null pointer; that unreachable read
is modelled as the empty list.) -/
def new_inbound_session {R : Type} (ext : SessionExt R) (s : Session R)
    (local_account : Account) (their_identity_key : Option (List Nat))
    (one_time_key_message : List Nat) : Session R × Option Unit :=
  let reader := ext.decode_one_time_key_message one_time_key_message
  if ¬ check_message_fields reader their_identity_key.isSome then
    ({ s with last_error := .BAD_MESSAGE_FORMAT }, none)
  else if reader.identity_key.isSome = true ∧ their_identity_key.isSome = true ∧
      reader.identity_key ≠ their_identity_key then
    ({ s with last_error := .BAD_MESSAGE_KEY_ID }, none)
  else
    let s1 := { s with
      alice_identity_key := reader.identity_key.getD [],
      alice_base_key := reader.base_key.getD [],
      bob_one_time_key := reader.one_time_key.getD [] }
    let message_reader := ext.decode_message (reader.message.getD []) ext.mac_length
    if message_reader.ratchet_key = none ∨
        (message_reader.ratchet_key.getD []).length ≠ KEY_LENGTH then
      ({ s1 with last_error := .BAD_MESSAGE_FORMAT }, none)
    else
      let ratchet_key := message_reader.ratchet_key.getD []
      match local_account.lookup_key s1.bob_one_time_key with
      | none => ({ s1 with last_error := .BAD_MESSAGE_KEY_ID }, none)
      | some our_one_time_key =>
        let bob_identity_key := local_account.identity_key
        let secret :=
          ext.curve25519_shared_secret our_one_time_key s1.alice_identity_key ++
          ext.curve25519_shared_secret bob_identity_key s1.alice_base_key ++
          ext.curve25519_shared_secret our_one_time_key s1.alice_base_key
        ({ s1 with ratchet := ext.initialise_as_bob secret ratchet_key }, some ())

/-- `SHA256_OUTPUT_LENGTH` from `crypto.hh`. -/
def SHA256_OUTPUT_LENGTH : Nat := 32

/-- `Session::session_id(id, id_length)`: require a 32-byte buffer, then write
SHA-256 of the concatenated public keys of the handshake triple. -/
def session_id {R : Type} (ext : SessionExt R) (s : Session R)
    (id_length : Nat) : Session R × Option (List Nat) :=
  if id_length < SHA256_OUTPUT_LENGTH then
    ({ s with last_error := .OUTPUT_BUFFER_TOO_SMALL }, none)
  else
    (s, some (ext.sha256
      (s.alice_identity_key ++ s.alice_base_key ++ s.bob_one_time_key)))

/-- `Session::matches_inbound_session(their_identity_key, message, len)`:
decode the envelope, check the fields, then compare the envelope's (and the
supplied) identity key, the base key and the one-time key byte-wise against the
stored triple.  The session is returned unchanged: the C function writes no
session field (not even `last_error`). -/
def matches_inbound_session {R : Type} (ext : SessionExt R) (s : Session R)
    (their_identity_key : Option (List Nat)) (one_time_key_message : List Nat) :
    Session R × Bool :=
  let reader := ext.decode_one_time_key_message one_time_key_message
  if ¬ check_message_fields reader their_identity_key.isSome then
    (s, false)
  else
    let same := true
    let same := same && (match reader.identity_key with
      | some k => k == s.alice_identity_key
      | none => true)
    let same := same && (match their_identity_key with
      | some k => k == s.alice_identity_key
      | none => true)
    let same := same && (reader.base_key.getD []) == s.alice_base_key
    let same := same && (reader.one_time_key.getD []) == s.bob_one_time_key
    (s, same)

/-- `Session::encrypt_message_type()`. -/
def encrypt_message_type {R : Type} (s : Session R) : MessageType :=
  if s.received_message then .MESSAGE else .PRE_KEY

/-- `Session::encrypt`: frame (pre-key or normal, by `received_message`) and
run the ratchet's encrypt; on ratchet failure copy its error into `last_error`.
The framing itself involves no session-state change, so the model keeps only
the ratchet call and the error plumbing. -/
def session_encrypt {R : Type} (ext : SessionExt R) (s : Session R)
    (plaintext random : List Nat) : Session R × Option (List Nat) :=
  match ext.ratchet_encrypt s.ratchet plaintext random with
  | (r', .error e) => ({ s with ratchet := r', last_error := e }, none)
  | (r', .ok message) => ({ s with ratchet := r' }, some message)

/-- `Session::decrypt(message_type, message, ..., plaintext, ...)`: for a
pre-key message first extract the embedded message from the envelope
(BAD_MESSAGE_FORMAT when absent); run the ratchet's decrypt; on failure copy
the ratchet's error into `last_error`; on success set
`received_message := true`. -/
def session_decrypt {R : Type} (ext : SessionExt R) (s : Session R)
    (message_type : MessageType) (message : List Nat) :
    Session R × Option (List Nat) :=
  let body? : Option (List Nat) :=
    match message_type with
    | .MESSAGE => some message
    | .PRE_KEY => (ext.decode_one_time_key_message message).message
  match body? with
  | none => ({ s with last_error := .BAD_MESSAGE_FORMAT }, none)
  | some message_body =>
    match ext.ratchet_decrypt s.ratchet message_body with
    | (r', .error e) => ({ s with ratchet := r', last_error := e }, none)
    | (r', .ok plaintext) =>
      ({ s with ratchet := r', received_message := true }, some plaintext)

/-! ## Shared concrete instantiations of the external collaborators,
used by witnesses and counterexamples. -/

/-- A concrete stand-in megolm hash-step for tests: bump every data byte. -/
def testHash : MegolmHash := ⟨fun d _ _ => d.map (fun x => (x + 1) % 256)⟩

/-- A concrete stand-in group-message decoder for tests: version 3, the first
raw byte as message index, the rest as ciphertext. -/
def testGroupDecode : List Nat → Nat → GroupMessageFields :=
  fun msg _ => ⟨3, true, msg.headD 0, true, some (msg.drop 1)⟩

/-- A group-external bundle whose cipher rejects every message (its MAC
verification always fails). -/
def gxMacFail : GroupExt :=
  { decode := testGroupDecode,
    cipher := ⟨8, fun _ => 0, fun _ _ _ => none⟩,
    hash := testHash }

/-- A group-external bundle whose decoder and cipher ignore the message bytes
beyond the header: the cipher accepts everything. -/
def gxAccept : GroupExt :=
  { decode := fun _ _ => ⟨3, true, 0, true, some []⟩,
    cipher := ⟨8, fun _ => 0, fun _ _ _ => some [7]⟩,
    hash := testHash }

/-- An all-zero inbound group session at counter 0. -/
def zeroGroupSession : InboundGroupSession :=
  ⟨⟨0, List.replicate 128 0⟩, ⟨0, List.replicate 128 0⟩, .SUCCESS⟩

/-- A trivial concrete instantiation of the session externals over a `Unit`
ratchet state, used by witnesses: the pre-key decoder slices a long enough
buffer into three 32-byte keys and the embedded message; the ratchet decrypt
fails (BAD_MESSAGE_MAC) exactly when the body starts with a zero byte. -/
def unitSessionExt : SessionExt Unit :=
  { curve25519_generate_key := fun r => ⟨r, r⟩,
    curve25519_shared_secret := fun kp pk => kp.public_key ++ pk,
    sha256 := fun b => b.take 32,
    initialise_as_alice := fun _ _ => (),
    initialise_as_bob := fun _ _ => (),
    ratchet_decrypt := fun r m =>
      (r, if m.headD 0 = 0 then .error .BAD_MESSAGE_MAC else .ok m),
    ratchet_encrypt := fun r p _ => (r, .ok p),
    decode_one_time_key_message := fun m =>
      if 97 ≤ m.length then
        ⟨some (m.take 32), some ((m.drop 32).take 32),
         some ((m.drop 64).take 32), some (m.drop 96)⟩
      else ⟨none, none, none, none⟩,
    decode_message := fun m _ => ⟨if 32 ≤ m.length then some (m.take 32) else none⟩,
    mac_length := 8 }

/-- A concrete session whose handshake triple is the byte constants 1/2/3,
with `received_message` as given. -/
def testSession (b : Bool) : Session Unit :=
  ⟨b, List.replicate 32 1, List.replicate 32 2, List.replicate 32 3, (), .SUCCESS⟩

/-- A concrete account whose one-time-key store knows only the public key of
32 bytes of 3. -/
def testAccount : Account :=
  ⟨⟨List.replicate 32 4, List.replicate 32 5⟩,
   fun pk => if pk = List.replicate 32 3 then
       some ⟨List.replicate 32 3, List.replicate 32 6⟩
     else none⟩

/-- A concrete pre-key message for `unitSessionExt`'s decoder: identity key of
1s, base key of 2s, one-time key of 3s, and the given embedded message. -/
def testPreKeyMsg (inner : List Nat) : List Nat :=
  List.replicate 32 1 ++ List.replicate 32 2 ++ List.replicate 32 3 ++ inner

/-! ## Claims about the inbound group session -/

/-- C1 (counterexample): a group message with index 1 whose MAC verification
fails is rejected with BAD_MESSAGE_MAC, yet the session's `latest_ratchet` has
been advanced from counter 0 to counter 1 (its data bytes changed too): the
session state is NOT left exactly as it was before the call. -/
theorem group_decrypt_mac_failure_advances_latest_cx :
    (olm_group_decrypt gxMacFail zeroGroupSession [65, 81] 0).2 = none ∧
    (olm_group_decrypt gxMacFail zeroGroupSession [65, 81] 0).1.last_error
      = .BAD_MESSAGE_MAC ∧
    zeroGroupSession.latest_ratchet.counter = 0 ∧
    (olm_group_decrypt gxMacFail zeroGroupSession [65, 81] 0).1.latest_ratchet.counter
      = 1 ∧
    (olm_group_decrypt gxMacFail zeroGroupSession [65, 81] 0).1.latest_ratchet
      ≠ zeroGroupSession.latest_ratchet := by
  decide

/-- C1 (amended): when the megolm cipher's MAC verification fails on a
reachable, well-formed group message, `olm_group_decrypt` returns the error
sentinel with `last_error = BAD_MESSAGE_MAC` and `initial_ratchet` unchanged;
but when the message index was within `2^31` of `latest_ratchet` the session's
`latest_ratchet` has already been advanced to the message index (only in the
scratch-copy-of-initial branch is the whole session state unchanged). -/
theorem group_decrypt_mac_failure_spec (ext : GroupExt)
    (s : InboundGroupSession) (message : List Nat) (max_plaintext_length : Nat)
    (d : GroupMessageFields)
    (hb64 : message.length % 4 ≠ 1)
    (hd : ext.decode (decode_base64 message) ext.cipher.mac_length = d)
    (hmac : ∀ key ct, ext.cipher.decrypt key (decode_base64 message) ct = none)
    (hver : d.version = OLM_PROTOCOL_VERSION)
    (hidx : d.has_message_index = true)
    (hsid : d.has_session_id = true)
    (hct : d.ciphertext ≠ none)
    (hbuf : ext.cipher.decrypt_max_plaintext_length (d.ciphertext.getD []).length
              ≤ max_plaintext_length)
    (hreach : u32sub d.message_index s.latest_ratchet.counter < 2 ^ 31 ∨
              u32sub d.message_index s.initial_ratchet.counter < 2 ^ 31) :
    (olm_group_decrypt ext s message max_plaintext_length).2 = none ∧
    (olm_group_decrypt ext s message max_plaintext_length).1.last_error
      = .BAD_MESSAGE_MAC ∧
    (olm_group_decrypt ext s message max_plaintext_length).1.initial_ratchet
      = s.initial_ratchet ∧
    (if u32sub d.message_index s.latest_ratchet.counter < 2 ^ 31 then
      (olm_group_decrypt ext s message max_plaintext_length).1.latest_ratchet
        = megolm_advance_to ext.hash s.latest_ratchet d.message_index
    else
      (olm_group_decrypt ext s message max_plaintext_length).1.latest_ratchet
        = s.latest_ratchet) := by
  have hraw : decode_base64_length message.length
      = some (3 * (message.length / 4) +
          (if message.length % 4 = 0 then 0 else message.length % 4 - 1)) := by
    simp [decode_base64_length, hb64]
  have e31 : (2 : ℕ) ^ 31 = 2147483648 := by norm_num
  obtain ⟨ct, hcteq⟩ := Option.ne_none_iff_exists'.mp hct
  simp only [hcteq, Option.getD_some] at hbuf
  have hbuf' := Nat.not_lt.mpr hbuf
  by_cases hlatest : u32sub d.message_index s.latest_ratchet.counter < 2 ^ 31
  · rw [e31] at hlatest
    simp [olm_group_decrypt, group_decrypt_raw, hraw, hd, hver, hidx, hsid,
      hcteq, hbuf', hlatest, hmac, e31]
  · have hinit : u32sub d.message_index s.initial_ratchet.counter < 2 ^ 31 := by
      rcases hreach with h | h
      · exact absurd h hlatest
      · exact h
    have hinit' := Nat.not_le.mpr hinit
    rw [e31] at hlatest hinit'
    simp [olm_group_decrypt, group_decrypt_raw, hraw, hd, hver, hidx, hsid,
      hcteq, hbuf', hlatest, hinit', hmac, e31]

/-- Witness for C1's amended theorem: a concrete rejected message with index 1
against a session at counter 0. -/
theorem group_decrypt_mac_failure_spec_witness :
    (olm_group_decrypt gxMacFail zeroGroupSession [65, 81] 0).2 = none ∧
    (olm_group_decrypt gxMacFail zeroGroupSession [65, 81] 0).1.last_error
      = .BAD_MESSAGE_MAC ∧
    (olm_group_decrypt gxMacFail zeroGroupSession [65, 81] 0).1.initial_ratchet
      = zeroGroupSession.initial_ratchet ∧
    (if u32sub (1 : Nat) zeroGroupSession.latest_ratchet.counter < 2 ^ 31 then
      (olm_group_decrypt gxMacFail zeroGroupSession [65, 81] 0).1.latest_ratchet
        = megolm_advance_to gxMacFail.hash zeroGroupSession.latest_ratchet 1
    else
      (olm_group_decrypt gxMacFail zeroGroupSession [65, 81] 0).1.latest_ratchet
        = zeroGroupSession.latest_ratchet) :=
  group_decrypt_mac_failure_spec gxMacFail zeroGroupSession [65, 81] 0
    ⟨3, true, 1, true, some []⟩ (by decide) (by decide) (fun _ _ => rfl)
    rfl rfl rfl (by decide) (by decide) (Or.inl (by decide))

/-- C2 (counterexample): two group messages that agree on their first 8 raw
bytes and differ in all of their trailing 64 raw bytes (where the spec places
the Ed25519 signature) are BOTH decrypted successfully: nothing in
`olm_group_decrypt` verifies a signature, so altering the trailing 64 bytes is
not, by itself, rejected. -/
theorem group_decrypt_ignores_trailing_bytes_cx :
    (decode_base64 (List.replicate 96 65)).length = 72 ∧
    (decode_base64
      (List.replicate 8 65 ++ [65, 65, 68, 47] ++ List.replicate 84 47)).length = 72 ∧
    (decode_base64 (List.replicate 96 65)).take 8
      = (decode_base64
          (List.replicate 8 65 ++ [65, 65, 68, 47] ++ List.replicate 84 47)).take 8 ∧
    (decode_base64 (List.replicate 96 65)).drop 8
      ≠ (decode_base64
          (List.replicate 8 65 ++ [65, 65, 68, 47] ++ List.replicate 84 47)).drop 8 ∧
    (olm_group_decrypt gxAccept zeroGroupSession (List.replicate 96 65) 0).2
      = some [7] ∧
    (olm_group_decrypt gxAccept zeroGroupSession
        (List.replicate 8 65 ++ [65, 65, 68, 47] ++ List.replicate 84 47) 0).2
      = some [7] := by
  decide

/-- C2 (amended): `_decrypt` performs no Ed25519 signature verification — the
raw message bytes influence the result only through the group-message decoder's
fields and the megolm cipher's verdict, so two messages the decoder and cipher
cannot tell apart (e.g. differing only in bytes both ignore) decrypt
identically.  Rejection of tampering rests solely on the cipher's MAC. -/
theorem group_decrypt_depends_only_on_decode_and_cipher (ext : GroupExt)
    (s : InboundGroupSession) (raw1 raw2 : List Nat) (max_plaintext_length : Nat)
    (hdec : ext.decode raw1 ext.cipher.mac_length
              = ext.decode raw2 ext.cipher.mac_length)
    (hcip : ∀ key ct, ext.cipher.decrypt key raw1 ct
              = ext.cipher.decrypt key raw2 ct) :
    group_decrypt_raw ext s raw1 max_plaintext_length
      = group_decrypt_raw ext s raw2 max_plaintext_length := by
  unfold group_decrypt_raw
  rw [← hdec]
  simp only [hcip]

/-- Witness for C2's amended theorem: the two concrete 72-byte messages of the
counterexample produce identical results. -/
theorem group_decrypt_depends_only_on_decode_and_cipher_witness :
    group_decrypt_raw gxAccept zeroGroupSession (List.replicate 72 0) 0
      = group_decrypt_raw gxAccept zeroGroupSession
          (List.replicate 8 0 ++ List.replicate 64 255) 0 :=
  group_decrypt_depends_only_on_decode_and_cipher gxAccept zeroGroupSession
    (List.replicate 72 0) (List.replicate 8 0 ++ List.replicate 64 255) 0
    rfl (fun _ _ => rfl)

/-- C3 (counterexample): `olm_init_inbound_group_session` accepts a session key
whose decoded bytes start with 0 (not any version byte): it performs no
version-byte validation at all, contrary to the claim. -/
theorem init_inbound_group_session_no_version_check_cx :
    (olm_init_inbound_group_session zeroGroupSession 7 (List.replicate 171 65)).2
      = some () ∧
    (decode_base64 (List.replicate 171 65)).headD 9 = 0 ∧
    (olm_init_inbound_group_session zeroGroupSession 7
        (List.replicate 171 65)).1.initial_ratchet
      = ⟨7, List.replicate 128 0⟩ := by
  decide

/-- C3 (amended): `olm_init_inbound_group_session` validates only that the
session key is base64 of a valid length (INVALID_BASE64 otherwise) and that it
decodes to exactly 128 bytes (BAD_SESSION_KEY otherwise); there is no version
byte in this session-key format and no version check.  On success both
`initial_ratchet` and `latest_ratchet` receive the decoded 128 bytes with the
counter set to `message_index`. -/
theorem olm_init_inbound_group_session_validates (s : InboundGroupSession)
    (message_index : Nat) (session_key : List Nat) :
    (decode_base64_length session_key.length = none →
      olm_init_inbound_group_session s message_index session_key
        = ({ s with last_error := .INVALID_BASE64 }, none)) ∧
    (∀ n, decode_base64_length session_key.length = some n →
      n ≠ MEGOLM_RATCHET_LENGTH →
      olm_init_inbound_group_session s message_index session_key
        = ({ s with last_error := .BAD_SESSION_KEY }, none)) ∧
    (decode_base64_length session_key.length = some MEGOLM_RATCHET_LENGTH →
      olm_init_inbound_group_session s message_index session_key
        = ({ s with
              initial_ratchet :=
                megolm_init (decode_base64 session_key) message_index,
              latest_ratchet :=
                megolm_init (decode_base64 session_key) message_index },
            some ())) := by
  refine ⟨fun h => ?_, fun n h hn => ?_, fun h => ?_⟩
  · simp [olm_init_inbound_group_session, h]
  · simp [olm_init_inbound_group_session, h, hn]
  · simp [olm_init_inbound_group_session, h]

/-- Witness for C3's amended theorem: a 171-character all-'A' key decodes to
128 zero bytes and initialises both ratchets at counter 5. -/
theorem olm_init_inbound_group_session_validates_witness :
    olm_init_inbound_group_session zeroGroupSession 5 (List.replicate 171 65)
      = ({ zeroGroupSession with
            initial_ratchet :=
              megolm_init (decode_base64 (List.replicate 171 65)) 5,
            latest_ratchet :=
              megolm_init (decode_base64 (List.replicate 171 65)) 5 },
          some ()) :=
  (olm_init_inbound_group_session_validates zeroGroupSession 5
    (List.replicate 171 65)).2.2 (by decide)

/-- C4: on a well-formed group message with index `c`, `olm_group_decrypt`
chooses its ratchet by the two unsigned 32-bit window tests: if
`c - latest.counter < 2^31` it advances `latest_ratchet` in place and decrypts
with it; else if `c - initial.counter ≥ 2^31` it fails with
UNKNOWN_MESSAGE_INDEX, touching neither ratchet and producing no plaintext;
otherwise it decrypts with an advanced scratch copy of `initial_ratchet`,
leaving both stored ratchets unchanged. -/
theorem group_decrypt_ratchet_choice (ext : GroupExt) (s : InboundGroupSession)
    (message : List Nat) (max_plaintext_length : Nat) (d : GroupMessageFields)
    (hb64 : message.length % 4 ≠ 1)
    (hd : ext.decode (decode_base64 message) ext.cipher.mac_length = d)
    (hver : d.version = OLM_PROTOCOL_VERSION)
    (hidx : d.has_message_index = true)
    (hsid : d.has_session_id = true)
    (hct : d.ciphertext ≠ none)
    (hbuf : ext.cipher.decrypt_max_plaintext_length (d.ciphertext.getD []).length
              ≤ max_plaintext_length) :
    (u32sub d.message_index s.latest_ratchet.counter < 2 ^ 31 →
      (olm_group_decrypt ext s message max_plaintext_length).1.latest_ratchet
        = megolm_advance_to ext.hash s.latest_ratchet d.message_index ∧
      (olm_group_decrypt ext s message max_plaintext_length).1.initial_ratchet
        = s.initial_ratchet ∧
      (olm_group_decrypt ext s message max_plaintext_length).2
        = ext.cipher.decrypt
            (megolm_advance_to ext.hash s.latest_ratchet d.message_index).data
            (decode_base64 message) (d.ciphertext.getD [])) ∧
    (¬ u32sub d.message_index s.latest_ratchet.counter < 2 ^ 31 →
      2 ^ 31 ≤ u32sub d.message_index s.initial_ratchet.counter →
      olm_group_decrypt ext s message max_plaintext_length
        = ({ s with last_error := .UNKNOWN_MESSAGE_INDEX }, none)) ∧
    (¬ u32sub d.message_index s.latest_ratchet.counter < 2 ^ 31 →
      u32sub d.message_index s.initial_ratchet.counter < 2 ^ 31 →
      (olm_group_decrypt ext s message max_plaintext_length).1.initial_ratchet
        = s.initial_ratchet ∧
      (olm_group_decrypt ext s message max_plaintext_length).1.latest_ratchet
        = s.latest_ratchet ∧
      (olm_group_decrypt ext s message max_plaintext_length).2
        = ext.cipher.decrypt
            (megolm_advance_to ext.hash s.initial_ratchet d.message_index).data
            (decode_base64 message) (d.ciphertext.getD [])) := by
  have e31 : (2 : ℕ) ^ 31 = 2147483648 := by norm_num
  have hraw : decode_base64_length message.length
      = some (3 * (message.length / 4) +
          (if message.length % 4 = 0 then 0 else message.length % 4 - 1)) := by
    simp [decode_base64_length, hb64]
  obtain ⟨ct, hcteq⟩ := Option.ne_none_iff_exists'.mp hct
  simp only [hcteq, Option.getD_some] at hbuf ⊢
  have hbuf' := Nat.not_lt.mpr hbuf
  refine ⟨fun h1 => ?_, fun h1 h2 => ?_, fun h1 h2 => ?_⟩
  · rw [e31] at h1
    cases hc : ext.cipher.decrypt
        (megolm_advance_to ext.hash s.latest_ratchet d.message_index).data
        (decode_base64 message) ct with
    | none =>
      simp [olm_group_decrypt, group_decrypt_raw, hraw, hd, hver, hidx, hsid,
        hcteq, hbuf', h1, hc, e31]
    | some pt =>
      simp [olm_group_decrypt, group_decrypt_raw, hraw, hd, hver, hidx, hsid,
        hcteq, hbuf', h1, hc, e31]
  · rw [e31] at h1 h2
    simp [olm_group_decrypt, group_decrypt_raw, hraw, hd, hver, hidx, hsid,
      hcteq, hbuf', h1, h2, e31]
  · have h2' := Nat.not_le.mpr h2
    rw [e31] at h1 h2'
    cases hc : ext.cipher.decrypt
        (megolm_advance_to ext.hash s.initial_ratchet d.message_index).data
        (decode_base64 message) ct with
    | none =>
      simp [olm_group_decrypt, group_decrypt_raw, hraw, hd, hver, hidx, hsid,
        hcteq, hbuf', h1, h2', hc, e31]
    | some pt =>
      simp [olm_group_decrypt, group_decrypt_raw, hraw, hd, hver, hidx, hsid,
        hcteq, hbuf', h1, h2', hc, e31]

/-- Witness for C4: the first branch at a concrete index-1 message against a
counter-0 session. -/
theorem group_decrypt_ratchet_choice_witness :
    (olm_group_decrypt gxMacFail zeroGroupSession [65, 81] 0).1.latest_ratchet
      = megolm_advance_to gxMacFail.hash zeroGroupSession.latest_ratchet 1 ∧
    (olm_group_decrypt gxMacFail zeroGroupSession [65, 81] 0).1.initial_ratchet
      = zeroGroupSession.initial_ratchet ∧
    (olm_group_decrypt gxMacFail zeroGroupSession [65, 81] 0).2
      = gxMacFail.cipher.decrypt
          (megolm_advance_to gxMacFail.hash zeroGroupSession.latest_ratchet 1).data
          (decode_base64 [65, 81]) [] :=
  (group_decrypt_ratchet_choice gxMacFail zeroGroupSession [65, 81] 0
    ⟨3, true, 1, true, some []⟩ (by decide) (by decide) rfl rfl rfl
    (by decide) (by decide)).1 (by decide)

/-- Length of `sextetsToBytes`: each full group of four sextets yields three
bytes; a trailing group of two or three sextets yields one or two bytes. -/
theorem sextetsToBytes_length (l : List Nat) :
    (sextetsToBytes l).length
      = 3 * (l.length / 4) +
          (if l.length % 4 = 0 then 0 else l.length % 4 - 1) := by
  induction l using sextetsToBytes.induct with
  | case1 s0 s1 s2 s3 rest ih =>
    simp only [sextetsToBytes, List.length_cons, ih]
    have hm : (rest.length + 1 + 1 + 1 + 1) % 4 = rest.length % 4 := by omega
    have hdiv : (rest.length + 1 + 1 + 1 + 1) / 4 = rest.length / 4 + 1 := by
      omega
    rw [hm, hdiv]
    omega
  | case2 s0 s1 => simp [sextetsToBytes]
  | case3 s0 s1 s2 => simp [sextetsToBytes]
  | case4 t h1 h2 h3 =>
    rcases t with _ | ⟨a, _ | ⟨b, _ | ⟨c, _ | ⟨e, rest⟩⟩⟩⟩
    · simp [sextetsToBytes]
    · simp [sextetsToBytes]
    · exact (h2 a b rfl).elim
    · exact (h3 a b c rfl).elim
    · exact (h1 a b c e rest rfl).elim

/-- The decoded length announced by `decode_base64_length` is the length
`decode_base64` actually produces. -/
theorem decode_base64_length_eq (input : List Nat) (n : Nat)
    (h : decode_base64_length input.length = some n) :
    (decode_base64 input).length = n := by
  unfold decode_base64_length at h
  split at h
  · exact absurd h (by simp)
  · simp only [Option.some.injEq] at h
    rw [decode_base64, sextetsToBytes_length, List.length_map]
    exact h

/-- C9: immediately after a successful `olm_init_inbound_group_session` with
message index below `2^32`, `initial_ratchet` and `latest_ratchet` are
identical: both carry the counter `message_index` and the 128 base64-decoded
session-key bytes. -/
theorem init_inbound_ratchets_identical (s s' : InboundGroupSession)
    (message_index : Nat) (session_key : List Nat)
    (hidx : message_index < 2 ^ 32)
    (h : olm_init_inbound_group_session s message_index session_key
          = (s', some ())) :
    s'.initial_ratchet = s'.latest_ratchet ∧
    s'.initial_ratchet.counter = message_index ∧
    s'.initial_ratchet.data = decode_base64 session_key ∧
    s'.initial_ratchet.data.length = MEGOLM_RATCHET_LENGTH := by
  cases hl : decode_base64_length session_key.length with
  | none => simp [olm_init_inbound_group_session, hl] at h
  | some n =>
    by_cases hn : n = MEGOLM_RATCHET_LENGTH
    · subst hn
      have heq : olm_init_inbound_group_session s message_index session_key
          = ({ s with
                initial_ratchet :=
                  megolm_init (decode_base64 session_key) message_index,
                latest_ratchet :=
                  megolm_init (decode_base64 session_key) message_index },
              some ()) := by
        simp [olm_init_inbound_group_session, hl]
      rw [heq] at h
      have hs' : s' = { s with
          initial_ratchet := megolm_init (decode_base64 session_key) message_index,
          latest_ratchet := megolm_init (decode_base64 session_key) message_index } := by
        have := congrArg Prod.fst h
        simpa using this.symm
      subst hs'
      refine ⟨rfl, ?_, rfl, ?_⟩
      · have hidx' : message_index < 4294967296 := by simpa using hidx
        simp [megolm_init, Nat.mod_eq_of_lt hidx']
      · simpa [megolm_init] using decode_base64_length_eq session_key _ hl
    · simp [olm_init_inbound_group_session, hl, hn] at h

/-- Witness for C9 at a concrete session key (171 'A' characters, counter 7). -/
theorem init_inbound_ratchets_identical_witness :
    (⟨⟨7, List.replicate 128 0⟩, ⟨7, List.replicate 128 0⟩,
        .SUCCESS⟩ : InboundGroupSession).initial_ratchet
      = (⟨⟨7, List.replicate 128 0⟩, ⟨7, List.replicate 128 0⟩,
          .SUCCESS⟩ : InboundGroupSession).latest_ratchet ∧
    (⟨⟨7, List.replicate 128 0⟩, ⟨7, List.replicate 128 0⟩,
        .SUCCESS⟩ : InboundGroupSession).initial_ratchet.counter = 7 ∧
    (⟨⟨7, List.replicate 128 0⟩, ⟨7, List.replicate 128 0⟩,
        .SUCCESS⟩ : InboundGroupSession).initial_ratchet.data
      = decode_base64 (List.replicate 171 65) ∧
    (⟨⟨7, List.replicate 128 0⟩, ⟨7, List.replicate 128 0⟩,
        .SUCCESS⟩ : InboundGroupSession).initial_ratchet.data.length
      = MEGOLM_RATCHET_LENGTH :=
  init_inbound_ratchets_identical zeroGroupSession _ 7 (List.replicate 171 65)
    (by norm_num) (by decide)

/-! ## Claims about the pairwise session -/

/-- C5: with at least 64 random bytes, `new_outbound_session` generates the
ephemeral Ea from the first 32 random bytes and T0 from the next 32, derives
the ratchet seed as `DH(Ia,Eb) || DH(Ea,Ib) || DH(Ea,Eb)` in that order,
initialises the ratchet as Alice with that secret and T0, stores the triple
{Ia.pub, Ea.pub, Eb.pub} and clears `received_message`; with fewer than 64
random bytes it fails with NOT_ENOUGH_RANDOM, leaving the rest of the state
untouched. -/
theorem new_outbound_session_spec {R : Type} (ext : SessionExt R)
    (s : Session R) (acct : Account) (identity_key one_time_key : List Nat)
    (random : List Nat) :
    (random.length < new_outbound_session_random_length →
      new_outbound_session ext s acct identity_key one_time_key random
        = ({ s with last_error := .NOT_ENOUGH_RANDOM }, none)) ∧
    (new_outbound_session_random_length ≤ random.length →
      new_outbound_session ext s acct identity_key one_time_key random
        = ({ s with
              received_message := false,
              alice_identity_key := acct.identity_key.public_key,
              alice_base_key :=
                (ext.curve25519_generate_key (random.take KEY_LENGTH)).public_key,
              bob_one_time_key := one_time_key,
              ratchet := ext.initialise_as_alice
                (ext.curve25519_shared_secret acct.identity_key one_time_key ++
                 ext.curve25519_shared_secret
                   (ext.curve25519_generate_key (random.take KEY_LENGTH))
                   identity_key ++
                 ext.curve25519_shared_secret
                   (ext.curve25519_generate_key (random.take KEY_LENGTH))
                   one_time_key)
                (ext.curve25519_generate_key
                  ((random.drop KEY_LENGTH).take KEY_LENGTH)) },
            some ())) := by
  constructor
  · intro h
    simp [new_outbound_session, h]
  · intro h
    simp [new_outbound_session, Nat.not_lt.mpr h]

/-- Witness for C5 at 64 concrete random bytes against a concrete session. -/
theorem new_outbound_session_spec_witness :
    new_outbound_session unitSessionExt (testSession true) testAccount
        (List.replicate 32 9) (List.replicate 32 8) (List.replicate 64 1)
      = ({ testSession true with
            received_message := false,
            alice_identity_key := testAccount.identity_key.public_key,
            alice_base_key :=
              (unitSessionExt.curve25519_generate_key
                ((List.replicate 64 1).take KEY_LENGTH)).public_key,
            bob_one_time_key := List.replicate 32 8,
            ratchet := unitSessionExt.initialise_as_alice
              (unitSessionExt.curve25519_shared_secret testAccount.identity_key
                  (List.replicate 32 8) ++
               unitSessionExt.curve25519_shared_secret
                 (unitSessionExt.curve25519_generate_key
                   ((List.replicate 64 1).take KEY_LENGTH))
                 (List.replicate 32 9) ++
               unitSessionExt.curve25519_shared_secret
                 (unitSessionExt.curve25519_generate_key
                   ((List.replicate 64 1).take KEY_LENGTH))
                 (List.replicate 32 8))
              (unitSessionExt.curve25519_generate_key
                (((List.replicate 64 1).drop KEY_LENGTH).take KEY_LENGTH)) },
          some ()) :=
  (new_outbound_session_spec unitSessionExt (testSession true) testAccount
    (List.replicate 32 9) (List.replicate 32 8) (List.replicate 64 1)).2
    (by decide)

/-- C6: with a large enough output buffer, `session_id` writes exactly
SHA-256 of `Ia.pub || Ea.pub || Eb.pub` and leaves the session untouched (so
it is deterministic and stable across calls), and any two sessions storing the
same handshake triple — such as the two sides of a completed handshake —
produce the same id. -/
theorem session_id_spec {R : Type} (ext : SessionExt R) (s : Session R)
    (id_length : Nat) (h : SHA256_OUTPUT_LENGTH ≤ id_length) :
    session_id ext s id_length
      = (s, some (ext.sha256
          (s.alice_identity_key ++ s.alice_base_key ++ s.bob_one_time_key))) ∧
    (∀ (s2 : Session R) (id_length2 : Nat), SHA256_OUTPUT_LENGTH ≤ id_length2 →
      s2.alice_identity_key = s.alice_identity_key →
      s2.alice_base_key = s.alice_base_key →
      s2.bob_one_time_key = s.bob_one_time_key →
      (session_id ext s2 id_length2).2 = (session_id ext s id_length).2) := by
  constructor
  · simp [session_id, Nat.not_lt.mpr h]
  · intro s2 id_length2 h2 e1 e2 e3
    simp [session_id, Nat.not_lt.mpr h, Nat.not_lt.mpr h2, e1, e2, e3]

/-- Witness for C6: a concrete session and its twin with a flipped
`received_message` flag produce the same 32-byte id. -/
theorem session_id_spec_witness :
    session_id unitSessionExt (testSession false) 32
      = (testSession false, some (unitSessionExt.sha256
          ((testSession false).alice_identity_key ++
           (testSession false).alice_base_key ++
           (testSession false).bob_one_time_key))) ∧
    (session_id unitSessionExt (testSession true) 33).2
      = (session_id unitSessionExt (testSession false) 32).2 :=
  ⟨(session_id_spec unitSessionExt (testSession false) 32 (by decide)).1,
   (session_id_spec unitSessionExt (testSession false) 32 (by decide)).2
     (testSession true) 33 (by decide) rfl rfl rfl⟩

/-- C7: `matches_inbound_session` never mutates the session (not even
`last_error`), and returns true exactly when the pre-key envelope carries all
required fields and the (identity, base, one-time) key triple byte-matches the
stored triple — the identity key being checked against the envelope field
and/or the supplied expected key, whichever is present. -/
theorem matches_inbound_session_spec {R : Type} (ext : SessionExt R)
    (s : Session R) (their_identity_key : Option (List Nat)) (msg : List Nat) :
    (matches_inbound_session ext s their_identity_key msg).1 = s ∧
    ((matches_inbound_session ext s their_identity_key msg).2 = true ↔
      (check_message_fields (ext.decode_one_time_key_message msg)
          their_identity_key.isSome = true ∧
       (∀ k, (ext.decode_one_time_key_message msg).identity_key = some k →
          k = s.alice_identity_key) ∧
       (∀ k, their_identity_key = some k → k = s.alice_identity_key) ∧
       (ext.decode_one_time_key_message msg).base_key
          = some s.alice_base_key ∧
       (ext.decode_one_time_key_message msg).one_time_key
          = some s.bob_one_time_key)) := by
  rcases hdec : ext.decode_one_time_key_message msg with ⟨ik, bk, otk, m⟩
  constructor
  · unfold matches_inbound_session
    rw [hdec]
    by_cases hc : check_message_fields ⟨ik, bk, otk, m⟩
        their_identity_key.isSome = true <;>
      simp [hc]
  · unfold matches_inbound_session check_message_fields
    rw [hdec]
    rcases ik with _ | ik <;> rcases bk with _ | bk <;> rcases otk with _ | otk <;>
      rcases m with _ | m <;> rcases their_identity_key with _ | tik <;>
      simp_all <;> (try (split <;> simp_all)) <;> tauto

/-- Witness for C7: a matching concrete envelope returns true and leaves the
concrete session untouched. -/
theorem matches_inbound_session_spec_witness :
    (matches_inbound_session unitSessionExt (testSession false)
        (some (List.replicate 32 1)) (testPreKeyMsg [0])).1 = testSession false ∧
    (matches_inbound_session unitSessionExt (testSession false)
        (some (List.replicate 32 1)) (testPreKeyMsg [0])).2 = true :=
  ⟨(matches_inbound_session_spec unitSessionExt (testSession false)
      (some (List.replicate 32 1)) (testPreKeyMsg [0])).1,
   (matches_inbound_session_spec unitSessionExt (testSession false)
      (some (List.replicate 32 1)) (testPreKeyMsg [0])).2.mpr
    ⟨by decide,
     fun k hk => by
       have e : (unitSessionExt.decode_one_time_key_message
           (testPreKeyMsg [0])).identity_key = some (List.replicate 32 1) := by
         decide
       rw [e] at hk
       injection hk with h
       exact h.symm,
     fun k hk => by
       injection hk with h
       exact h.symm,
     by decide, by decide⟩⟩

/-- One call to `Session::decrypt` either fails, leaving `received_message`
as it was, or succeeds and leaves it set. -/
theorem session_decrypt_received_cases {R : Type} (ext : SessionExt R)
    (s : Session R) (t : MessageType) (m : List Nat) :
    ((session_decrypt ext s t m).2 = none ∧
      (session_decrypt ext s t m).1.received_message = s.received_message) ∨
    ((session_decrypt ext s t m).1.received_message = true ∧
      ∃ pt, (session_decrypt ext s t m).2 = some pt) := by
  cases t with
  | MESSAGE =>
    rcases hr : ext.ratchet_decrypt s.ratchet m with ⟨r', res⟩
    cases res with
    | error e => left; simp [session_decrypt, hr]
    | ok pt => right; simp [session_decrypt, hr]
  | PRE_KEY =>
    rcases hm : (ext.decode_one_time_key_message m).message with _ | body
    · left; simp [session_decrypt, hm]
    · rcases hr : ext.ratchet_decrypt s.ratchet body with ⟨r', res⟩
      cases res with
      | error e => left; simp [session_decrypt, hm, hr]
      | ok pt => right; simp [session_decrypt, hm, hr]

/-- C8: `encrypt_message_type` returns PRE_KEY exactly while
`received_message` is false and MESSAGE exactly once it is true; a failed
decrypt leaves `received_message` unchanged, a successful decrypt sets it to
true, encrypt never changes it, and once true it stays true across any
sequence of further decrypts. -/
theorem received_message_monotone {R : Type} (ext : SessionExt R)
    (s : Session R) :
    (encrypt_message_type s = .PRE_KEY ↔ s.received_message = false) ∧
    (encrypt_message_type s = .MESSAGE ↔ s.received_message = true) ∧
    (∀ t m, (session_decrypt ext s t m).2 = none →
      (session_decrypt ext s t m).1.received_message = s.received_message) ∧
    (∀ t m pt, (session_decrypt ext s t m).2 = some pt →
      (session_decrypt ext s t m).1.received_message = true) ∧
    (∀ p r, (session_encrypt ext s p r).1.received_message
      = s.received_message) ∧
    (∀ steps : List (MessageType × List Nat), s.received_message = true →
      (steps.foldl (fun st x => (session_decrypt ext st x.1 x.2).1)
        s).received_message = true) := by
  refine ⟨?_, ?_, ?_, ?_, ?_, ?_⟩
  · cases hr : s.received_message <;> simp [encrypt_message_type, hr]
  · cases hr : s.received_message <;> simp [encrypt_message_type, hr]
  · intro t m h
    rcases session_decrypt_received_cases ext s t m with ⟨_, h2⟩ | ⟨_, pt, h2⟩
    · exact h2
    · rw [h] at h2
      simp at h2
  · intro t m pt h
    rcases session_decrypt_received_cases ext s t m with ⟨h1, _⟩ | ⟨h1, _⟩
    · rw [h] at h1
      simp at h1
    · exact h1
  · intro p r
    rcases hr : ext.ratchet_encrypt s.ratchet p r with ⟨r', res⟩
    cases res <;> simp [session_encrypt, hr]
  · intro steps
    induction steps generalizing s with
    | nil => intro h; simpa using h
    | cons a tl ih =>
      intro h
      simp only [List.foldl_cons]
      apply ih
      rcases session_decrypt_received_cases ext s a.1 a.2 with ⟨_, h2⟩ | ⟨h1, _⟩
      · rw [h2, h]
      · exact h1

/-- Witness for C8: a fresh concrete session reports PRE_KEY, and a concrete
successful decrypt sets `received_message`. -/
theorem received_message_monotone_witness :
    (encrypt_message_type (testSession false) = .PRE_KEY ↔
      (testSession false).received_message = false) ∧
    (session_decrypt unitSessionExt (testSession false)
        .MESSAGE [1]).1.received_message = true :=
  ⟨(received_message_monotone unitSessionExt (testSession false)).1,
   (received_message_monotone unitSessionExt (testSession false)).2.2.2.1
     .MESSAGE [1] [1] (by decide)⟩

/-- C10: `new_inbound_session` fails before touching the stored triple only on
the field check (BAD_MESSAGE_FORMAT) or the expected-identity mismatch
(BAD_MESSAGE_KEY_ID); past those checks it overwrites the stored
(identity, base, one-time) triple with the message's values, so the two later
failures — a bad embedded ratchet key (BAD_MESSAGE_FORMAT) or an unknown
one-time key (BAD_MESSAGE_KEY_ID) — leave the session holding the message's
triple rather than its previous state. -/
theorem new_inbound_session_triple_overwrite {R : Type} (ext : SessionExt R)
    (s : Session R) (acct : Account) (their_identity_key : Option (List Nat))
    (msg : List Nat) :
    (check_message_fields (ext.decode_one_time_key_message msg)
        their_identity_key.isSome = false →
      new_inbound_session ext s acct their_identity_key msg
        = ({ s with last_error := .BAD_MESSAGE_FORMAT }, none)) ∧
    (∀ rk tk,
      check_message_fields (ext.decode_one_time_key_message msg)
        their_identity_key.isSome = true →
      (ext.decode_one_time_key_message msg).identity_key = some rk →
      their_identity_key = some tk → rk ≠ tk →
      new_inbound_session ext s acct their_identity_key msg
        = ({ s with last_error := .BAD_MESSAGE_KEY_ID }, none)) ∧
    (check_message_fields (ext.decode_one_time_key_message msg)
        their_identity_key.isSome = true →
      (∀ rk tk, (ext.decode_one_time_key_message msg).identity_key = some rk →
        their_identity_key = some tk → rk = tk) →
      (new_inbound_session ext s acct their_identity_key msg).1.alice_identity_key
        = ((ext.decode_one_time_key_message msg).identity_key.getD []) ∧
      (new_inbound_session ext s acct their_identity_key msg).1.alice_base_key
        = ((ext.decode_one_time_key_message msg).base_key.getD []) ∧
      (new_inbound_session ext s acct their_identity_key msg).1.bob_one_time_key
        = ((ext.decode_one_time_key_message msg).one_time_key.getD []) ∧
      ((ext.decode_message ((ext.decode_one_time_key_message msg).message.getD [])
          ext.mac_length).ratchet_key = none ∨
        ((ext.decode_message ((ext.decode_one_time_key_message msg).message.getD [])
          ext.mac_length).ratchet_key.getD []).length ≠ KEY_LENGTH →
        (new_inbound_session ext s acct their_identity_key msg).1.last_error
          = .BAD_MESSAGE_FORMAT ∧
        (new_inbound_session ext s acct their_identity_key msg).2 = none) ∧
      (∀ rkey,
        (ext.decode_message ((ext.decode_one_time_key_message msg).message.getD [])
          ext.mac_length).ratchet_key = some rkey →
        rkey.length = KEY_LENGTH →
        acct.lookup_key
          ((ext.decode_one_time_key_message msg).one_time_key.getD []) = none →
        (new_inbound_session ext s acct their_identity_key msg).1.last_error
          = .BAD_MESSAGE_KEY_ID ∧
        (new_inbound_session ext s acct their_identity_key msg).2 = none)) := by
  refine ⟨fun hc => ?_, fun rk tk hc hik htik hne => ?_, fun hc hmatch => ?_⟩
  · simp [new_inbound_session, hc]
  · have hc' : check_message_fields (ext.decode_one_time_key_message msg) true
        = true := by
      rw [htik] at hc
      simpa using hc
    have hne' : (ext.decode_one_time_key_message msg).identity_key
        ≠ their_identity_key := by
      rw [hik, htik]
      simp [hne]
    simp [new_inbound_session, hc', htik, hik, hne']
    exact fun h => absurd h hne
  · have hif : ¬ ((ext.decode_one_time_key_message msg).identity_key.isSome = true ∧
        their_identity_key.isSome = true ∧
        (ext.decode_one_time_key_message msg).identity_key
          ≠ their_identity_key) := by
      rintro ⟨h1, h2, h3⟩
      obtain ⟨rk, hik⟩ := Option.isSome_iff_exists.mp h1
      obtain ⟨tk, htk⟩ := Option.isSome_iff_exists.mp h2
      exact h3 (by rw [hik, htk, hmatch rk tk hik htk])
    rcases hmr : (ext.decode_message
        ((ext.decode_one_time_key_message msg).message.getD [])
        ext.mac_length).ratchet_key with _ | rkey
    · refine ⟨?_, ?_, ?_, fun _ => ?_, fun rkey' hrk hlen' hlo => ?_⟩
      · simp [new_inbound_session, hc, hif, hmr]
      · simp [new_inbound_session, hc, hif, hmr]
      · simp [new_inbound_session, hc, hif, hmr]
      · constructor <;> simp [new_inbound_session, hc, hif, hmr]
      · simp at hrk
    · by_cases hlen : rkey.length = KEY_LENGTH
      · rcases hlook : acct.lookup_key
            ((ext.decode_one_time_key_message msg).one_time_key.getD [])
          with _ | otk
        · refine ⟨?_, ?_, ?_, fun hbad => ?_, fun rkey' hrk hlen' hlo => ?_⟩
          · simp [new_inbound_session, hc, hif, hmr, hlen, hlook]
          · simp [new_inbound_session, hc, hif, hmr, hlen, hlook]
          · simp [new_inbound_session, hc, hif, hmr, hlen, hlook]
          · simp [hlen] at hbad
          · constructor <;> simp [new_inbound_session, hc, hif, hmr, hlen, hlook]
        · refine ⟨?_, ?_, ?_, fun hbad => ?_, fun rkey' hrk hlen' hlo => ?_⟩
          · simp [new_inbound_session, hc, hif, hmr, hlen, hlook]
          · simp [new_inbound_session, hc, hif, hmr, hlen, hlook]
          · simp [new_inbound_session, hc, hif, hmr, hlen, hlook]
          · simp [hlen] at hbad
          · simp at hlo
      · refine ⟨?_, ?_, ?_, fun _ => ?_, fun rkey' hrk hlen' hlo => ?_⟩
        · simp [new_inbound_session, hc, hif, hmr, hlen]
        · simp [new_inbound_session, hc, hif, hmr, hlen]
        · simp [new_inbound_session, hc, hif, hmr, hlen]
        · constructor <;> simp [new_inbound_session, hc, hif, hmr, hlen]
        · have h' : rkey = rkey' := by
            injection hrk
          exact absurd hlen' (h' ▸ hlen)

/-- Witness for C10: a concrete pre-key message whose embedded message has no
valid ratchet key still overwrites the stored triple (here the previously
stored identity key of 7s becomes the message's 1s) before failing with
BAD_MESSAGE_FORMAT. -/
theorem new_inbound_session_triple_overwrite_witness :
    (new_inbound_session unitSessionExt
        { testSession true with alice_identity_key := List.replicate 32 7 }
        testAccount (some (List.replicate 32 1))
        (testPreKeyMsg [9])).1.alice_identity_key
      = ((unitSessionExt.decode_one_time_key_message
          (testPreKeyMsg [9])).identity_key.getD []) ∧
    (new_inbound_session unitSessionExt
        { testSession true with alice_identity_key := List.replicate 32 7 }
        testAccount (some (List.replicate 32 1))
        (testPreKeyMsg [9])).1.alice_base_key
      = ((unitSessionExt.decode_one_time_key_message
          (testPreKeyMsg [9])).base_key.getD []) ∧
    (new_inbound_session unitSessionExt
        { testSession true with alice_identity_key := List.replicate 32 7 }
        testAccount (some (List.replicate 32 1))
        (testPreKeyMsg [9])).1.bob_one_time_key
      = ((unitSessionExt.decode_one_time_key_message
          (testPreKeyMsg [9])).one_time_key.getD []) ∧
    (new_inbound_session unitSessionExt
        { testSession true with alice_identity_key := List.replicate 32 7 }
        testAccount (some (List.replicate 32 1))
        (testPreKeyMsg [9])).1.last_error = .BAD_MESSAGE_FORMAT ∧
    (new_inbound_session unitSessionExt
        { testSession true with alice_identity_key := List.replicate 32 7 }
        testAccount (some (List.replicate 32 1))
        (testPreKeyMsg [9])).2 = none :=
  have h := (new_inbound_session_triple_overwrite unitSessionExt
    { testSession true with alice_identity_key := List.replicate 32 7 }
    testAccount (some (List.replicate 32 1)) (testPreKeyMsg [9])).2.2
    (by decide)
    (fun rk tk hik htk => by
      have e : (unitSessionExt.decode_one_time_key_message
          (testPreKeyMsg [9])).identity_key = some (List.replicate 32 1) := by
        decide
      rw [e] at hik
      injection hik with h1
      injection htk with h2
      exact h1 ▸ h2)
  ⟨h.1, h.2.1, h.2.2.1,
   (h.2.2.2.1 (Or.inl (by decide))).1, (h.2.2.2.1 (Or.inl (by decide))).2⟩

end Olm
